import Mathlib

/-!
Shallow embedding of the per-vbucket DCP replication stream state machine
(`src/dcp/stream.h` of the kv_engine repository) and of the executor
thread's task-reset path (`src/engines/ep/src/executorthread.cc`).

The repository ships the class declarations of `Stream`, `ActiveStream`,
`NotifierStream` and `PassiveStream` (stream.h) together with a handful of
inline method bodies; the out-of-line bodies live in stream.cc, which is
not part of the sources.  Definitions taken verbatim from the header are
embedded from the source; definitions whose bodies are absent are marked
`Modelled from the spec:` and follow the specification's wording.
-/

namespace Dcp

/-- The stream state enumeration `stream_state_t` (stream.h, lines 38-46).
The seven states in declaration order. -/
inductive stream_state_t
  | STREAM_PENDING
  | STREAM_BACKFILLING
  | STREAM_IN_MEMORY
  | STREAM_TAKEOVER_SEND
  | STREAM_TAKEOVER_WAIT
  | STREAM_READING
  | STREAM_DEAD
deriving DecidableEq, Repr

open stream_state_t

/-- The end-of-stream reason enumeration `end_stream_status_t`
(stream.h, lines 48-59), in declaration order. -/
inductive end_stream_status_t
  | END_STREAM_OK
  | END_STREAM_CLOSED
  | END_STREAM_STATE
  | END_STREAM_DISCONNECTED
  | END_STREAM_SLOW
deriving DecidableEq, Repr

open end_stream_status_t

/-- The numeric value a C++ enumerator of `end_stream_status_t` receives:
enumerators without explicit initialisers are numbered from 0 in
declaration order, and these are the codes put on the wire. -/
def end_stream_status_t.wireCode : end_stream_status_t → Nat
  | END_STREAM_OK => 0
  | END_STREAM_CLOSED => 1
  | END_STREAM_STATE => 2
  | END_STREAM_DISCONNECTED => 3
  | END_STREAM_SLOW => 4

/-- The snapshot type enumeration `snapshot_type_t` (stream.h, lines 67-71). -/
inductive snapshot_type_t
  | none
  | disk
  | memory
deriving DecidableEq, Repr

/-- An outbound protocol message held in a stream's ready queue.  Only its
serialized size matters for the accounting claims (`getMessageSize()` in
the source). -/
structure DcpResponse where
  messageSize : Nat
deriving DecidableEq, Repr

/-- The mutable part of the base class `Stream` (stream.h, lines 84-172):
identity fields, the atomic `state_`, the ready queue `readyQ` and the
atomic byte counter `readyQueueMemory`. -/
structure Stream where
  name_ : String
  flags_ : Nat
  opaque_ : Nat
  vb_ : Nat
  start_seqno_ : Nat
  end_seqno_ : Nat
  vb_uuid_ : Nat
  snap_start_seqno_ : Nat
  snap_end_seqno_ : Nat
  state_ : stream_state_t
  readyQ : List DcpResponse
  readyQueueMemory : Nat
deriving DecidableEq, Repr

/-- `Stream::isActive` (stream.h, lines 125-127): returns
`state_ != STREAM_DEAD`. -/
def Stream.isActive (s : Stream) : Bool :=
  s.state_ != STREAM_DEAD

/-- Claim C10: `isActive()` returns true exactly when the state is not
Dead; every non-Dead state is reported active and only Dead is reported
inactive. -/
theorem C10_isActive_iff_not_dead :
    (∀ s : Stream, s.isActive = true ↔ s.state_ ≠ STREAM_DEAD) ∧
    (∀ s : Stream,
      (s.state_ = STREAM_PENDING ∨ s.state_ = STREAM_BACKFILLING ∨
       s.state_ = STREAM_IN_MEMORY ∨ s.state_ = STREAM_TAKEOVER_SEND ∨
       s.state_ = STREAM_TAKEOVER_WAIT ∨ s.state_ = STREAM_READING) →
        s.isActive = true) := by
  constructor
  · intro s
    simp [Stream.isActive]
  · intro s h
    rcases h with h | h | h | h | h | h <;> simp [Stream.isActive, h]

/-- Witness for C10 at a concrete pending stream and at the same stream
forced Dead. -/
theorem C10_isActive_iff_not_dead_witness :
    ({ name_ := "w", flags_ := 0, opaque_ := 7, vb_ := 0,
       start_seqno_ := 0, end_seqno_ := 100, vb_uuid_ := 1,
       snap_start_seqno_ := 0, snap_end_seqno_ := 0,
       state_ := STREAM_PENDING, readyQ := [],
       readyQueueMemory := 0 : Stream }.isActive = true ↔
      ({ name_ := "w", flags_ := 0, opaque_ := 7, vb_ := 0,
         start_seqno_ := 0, end_seqno_ := 100, vb_uuid_ := 1,
         snap_start_seqno_ := 0, snap_end_seqno_ := 0,
         state_ := STREAM_PENDING, readyQ := [],
         readyQueueMemory := 0 : Stream }.state_ ≠ STREAM_DEAD)) ∧
    ({ name_ := "w", flags_ := 0, opaque_ := 7, vb_ := 0,
       start_seqno_ := 0, end_seqno_ := 100, vb_uuid_ := 1,
       snap_start_seqno_ := 0, snap_end_seqno_ := 0,
       state_ := STREAM_PENDING, readyQ := [],
       readyQueueMemory := 0 : Stream }.isActive = true) :=
  ⟨C10_isActive_iff_not_dead.1 _,
   C10_isActive_iff_not_dead.2 _ (Or.inl rfl)⟩

/-- Claim C6: the five end-stream reasons carry the wire codes
OK=0, Closed=1, StateChanged=2, Disconnected=3, Slow=4, in declaration
order. -/
theorem C6_end_stream_wire_codes :
    END_STREAM_OK.wireCode = 0 ∧
    END_STREAM_CLOSED.wireCode = 1 ∧
    END_STREAM_STATE.wireCode = 2 ∧
    END_STREAM_DISCONNECTED.wireCode = 3 ∧
    END_STREAM_SLOW.wireCode = 4 := by
  decide

/-- Modelled from the spec: the body of `Stream::pushToReadyQ` lives in
stream.cc, which is absent from the sources; only its declaration
(stream.h, line 141) is present.  Per the spec, the helper is called under
`stream_mutex`, appends the message to the ready queue and updates
`ready_queue_bytes` alongside, so that the counter equals the sum of the
serialized sizes of the queued messages. -/
def Stream.pushToReadyQ (s : Stream) (resp : DcpResponse) : Stream :=
  { s with readyQ := s.readyQ ++ [resp],
           readyQueueMemory := s.readyQueueMemory + resp.messageSize }

/-- Modelled from the spec: the body of `Stream::popFromReadyQ` lives in
stream.cc, absent from the sources; only its declaration (stream.h,
line 144) is present.  Per the spec it removes the front message of the
ready queue, updating `ready_queue_bytes` alongside; on an empty queue it
does nothing. -/
def Stream.popFromReadyQ (s : Stream) : Stream :=
  match s.readyQ with
  | [] => s
  | r :: rest =>
      { s with readyQ := rest,
               readyQueueMemory := s.readyQueueMemory - r.messageSize }

/-- Pop the front of the ready queue `n` times (the loop that empties the
queue, expressed on an explicit counter). -/
def Stream.popTimes (s : Stream) : Nat → Stream
  | 0 => s
  | n + 1 => s.popFromReadyQ.popTimes n

/-- Modelled from the spec: the body of `Stream::clear_UNLOCKED` lives in
stream.cc, absent from the sources; only its declaration (stream.h,
line 138) is present.  Per the spec, `clear()` under the stream's lock
empties the ready queue, releasing each queued message: it pops until the
queue is empty. -/
def Stream.clear_UNLOCKED (s : Stream) : Stream :=
  s.popTimes s.readyQ.length

/-- The accounting invariant of the base `Stream`: `readyQueueMemory`
equals the sum of the serialized sizes of the messages currently in
`readyQ`. -/
def Stream.readyQInv (s : Stream) : Prop :=
  s.readyQueueMemory = (s.readyQ.map DcpResponse.messageSize).sum

instance (s : Stream) : Decidable s.readyQInv := by
  unfold Stream.readyQInv
  infer_instance

theorem push_preserves_readyQInv (s : Stream) (r : DcpResponse)
    (h : s.readyQInv) : (s.pushToReadyQ r).readyQInv := by
  simp only [Stream.readyQInv, Stream.pushToReadyQ] at *
  simp [h]

theorem pop_preserves_readyQInv (s : Stream)
    (h : s.readyQInv) : s.popFromReadyQ.readyQInv := by
  unfold Stream.readyQInv Stream.popFromReadyQ at *
  cases hq : s.readyQ with
  | nil => simpa [hq] using h
  | cons r rest =>
      rw [hq] at h
      simp only [List.map_cons, List.sum_cons] at h
      simp [hq, h]

theorem popTimes_clears (q : List DcpResponse) :
    ∀ s : Stream, s.readyQ = q → s.readyQInv →
      (s.popTimes q.length).readyQ = [] ∧
      (s.popTimes q.length).readyQueueMemory = 0 := by
  induction q with
  | nil =>
      intro s hq hinv
      simp [Stream.popTimes, hq, Stream.readyQInv, hq] at *
      simpa [hq] using hinv
  | cons r rest ih =>
      intro s hq hinv
      have hpop : s.popFromReadyQ =
          { s with readyQ := rest,
                   readyQueueMemory := s.readyQueueMemory - r.messageSize } := by
        unfold Stream.popFromReadyQ
        rw [hq]
      have hinv2 : s.popFromReadyQ.readyQInv := pop_preserves_readyQInv s hinv
      have hq2 : s.popFromReadyQ.readyQ = rest := by rw [hpop]
      have := ih s.popFromReadyQ hq2 hinv2
      simpa [Stream.popTimes] using this

/-- Claim C5: `readyQueueMemory` equals the sum of the serialized sizes of
the queued messages at every observation point: `pushToReadyQ` and
`popFromReadyQ` preserve the equality, and after `clear()` the queue is
empty and the counter is zero. -/
theorem C5_ready_queue_accounting (s : Stream) (r : DcpResponse)
    (h : s.readyQInv) :
    (s.pushToReadyQ r).readyQInv ∧
    s.popFromReadyQ.readyQInv ∧
    s.clear_UNLOCKED.readyQ = [] ∧
    s.clear_UNLOCKED.readyQueueMemory = 0 := by
  refine ⟨push_preserves_readyQInv s r h, pop_preserves_readyQInv s h, ?_, ?_⟩
  · exact (popTimes_clears s.readyQ s rfl h).1
  · exact (popTimes_clears s.readyQ s rfl h).2

/-- A concrete base stream used by the witnesses: one queued message of
three bytes, counter three. -/
def sampleStream : Stream :=
  { name_ := "w", flags_ := 0, opaque_ := 7, vb_ := 0,
    start_seqno_ := 0, end_seqno_ := 100, vb_uuid_ := 1,
    snap_start_seqno_ := 0, snap_end_seqno_ := 0,
    state_ := STREAM_PENDING,
    readyQ := [⟨3⟩], readyQueueMemory := 3 }

/-- Witness for C5 at a concrete stream holding one three-byte message. -/
theorem C5_ready_queue_accounting_witness :
    (sampleStream.pushToReadyQ ⟨5⟩).readyQInv ∧
    sampleStream.popFromReadyQ.readyQInv ∧
    sampleStream.clear_UNLOCKED.readyQ = [] ∧
    sampleStream.clear_UNLOCKED.readyQueueMemory = 0 :=
  C5_ready_queue_accounting sampleStream ⟨5⟩ (by decide)

/-- Modelled from the spec: the transition graph that
`ActiveStream::transitionState` (declared stream.h line 227, body in the
absent stream.cc) enforces.  Per §4.2: `Pending → Backfilling`;
`Backfilling → InMemory`; `Backfilling / InMemory → TakeoverSend`;
`TakeoverSend → TakeoverWait`; and `any → Dead` via endStream / setDead.
No back-edges exist except into Dead. -/
def activeValidTransition : stream_state_t → stream_state_t → Bool
  | STREAM_PENDING, STREAM_BACKFILLING => true
  | STREAM_BACKFILLING, STREAM_IN_MEMORY => true
  | STREAM_BACKFILLING, STREAM_TAKEOVER_SEND => true
  | STREAM_IN_MEMORY, STREAM_TAKEOVER_SEND => true
  | STREAM_TAKEOVER_SEND, STREAM_TAKEOVER_WAIT => true
  | _, STREAM_DEAD => true
  | _, _ => false

/-- The producer-side stream `ActiveStream` (stream.h, lines 174-303): the
base-class state plus the two seqno counters the claims mention. -/
structure ActiveStream where
  base : Stream
  lastReadSeqno : Nat
  lastSentSeqno : Nat
deriving DecidableEq, Repr

/-- Modelled from the spec: `ActiveStream::transitionState` (body in the
absent stream.cc) performs a permitted transition of the §4.2 graph by
storing the new state; the graph restricts which transitions occur. -/
def ActiveStream.transitionState (a : ActiveStream)
    (newState : stream_state_t) : ActiveStream :=
  if activeValidTransition a.base.state_ newState then
    { a with base := { a.base with state_ := newState } }
  else
    a

/-- `ActiveStream::setActive` (stream.h, lines 186-191): under the stream
mutex, if `state_ == STREAM_PENDING` then `transitionState(STREAM_BACKFILLING)`,
otherwise nothing. -/
def ActiveStream.setActive (a : ActiveStream) : ActiveStream :=
  if a.base.state_ = STREAM_PENDING then
    a.transitionState STREAM_BACKFILLING
  else
    a

/-- Claim C1: the only transition out of Pending (other than dying) is
Pending → Backfilling, performed by `setActive`: called in Pending it
moves the stream to Backfilling, called in any other state it changes
nothing. -/
theorem C1_setActive_pending_to_backfilling (a : ActiveStream) :
    (a.base.state_ = STREAM_PENDING →
        a.setActive.base.state_ = STREAM_BACKFILLING) ∧
    (a.base.state_ ≠ STREAM_PENDING → a.setActive = a) ∧
    (∀ t : stream_state_t, t ≠ STREAM_DEAD →
        (activeValidTransition STREAM_PENDING t = true ↔
          t = STREAM_BACKFILLING)) := by
  refine ⟨?_, ?_, ?_⟩
  · intro h
    simp [ActiveStream.setActive, ActiveStream.transitionState, h,
          activeValidTransition]
  · intro h
    simp [ActiveStream.setActive, h]
  · intro t ht
    cases t <;> simp_all [activeValidTransition]

/-- A concrete pending active stream for the C1 witness. -/
def samplePendingActive : ActiveStream :=
  { base := sampleStream, lastReadSeqno := 0, lastSentSeqno := 0 }

/-- A concrete in-memory active stream for the C1 witness. -/
def sampleInMemoryActive : ActiveStream :=
  { base := { sampleStream with state_ := STREAM_IN_MEMORY },
    lastReadSeqno := 4, lastSentSeqno := 2 }

/-- Witness for C1: a pending stream moves to Backfilling, an in-memory
stream is untouched, and Backfilling is the unique live target of
Pending. -/
theorem C1_setActive_pending_to_backfilling_witness :
    samplePendingActive.setActive.base.state_ = STREAM_BACKFILLING ∧
    sampleInMemoryActive.setActive = sampleInMemoryActive ∧
    (activeValidTransition STREAM_PENDING STREAM_BACKFILLING = true ↔
      STREAM_BACKFILLING = STREAM_BACKFILLING) :=
  ⟨(C1_setActive_pending_to_backfilling samplePendingActive).1 (by decide),
   (C1_setActive_pending_to_backfilling sampleInMemoryActive).2.1 (by decide),
   (C1_setActive_pending_to_backfilling samplePendingActive).2.2
     STREAM_BACKFILLING (by decide)⟩

/-- A stream together with the end-of-stream reason its `setDead` records
for diagnostics (§5 Cancellation). -/
structure StreamWithReason where
  str : Stream
  recordedReason : Option end_stream_status_t
deriving DecidableEq, Repr

/-- Modelled from the spec: `Stream::setDead` (declared stream.h line 117;
the overriding bodies live in the absent stream.cc).  Per §5, the first
caller transitions to Dead, records the reason, flushes the ready queue
and reports the bytes the discarded queue held; a caller that observes
Dead changes nothing and returns zero bytes freed. -/
def StreamWithReason.setDead (d : StreamWithReason)
    (status : end_stream_status_t) : Nat × StreamWithReason :=
  if d.str.state_ = STREAM_DEAD then
    (0, d)
  else
    (d.str.readyQueueMemory,
     { str := { d.str with state_ := STREAM_DEAD,
                           readyQ := [], readyQueueMemory := 0 },
       recordedReason := some status })

/-- Claim C4: `setDead(r)` is idempotent: from a live stream the first
call transitions to Dead, records the reason and returns the bytes freed
from the ready queue; any call on a Dead stream changes nothing and
returns zero. -/
theorem C4_setDead_idempotent (d : StreamWithReason)
    (r r2 : end_stream_status_t) (h : d.str.state_ ≠ STREAM_DEAD) :
    (d.setDead r).1 = d.str.readyQueueMemory ∧
    (d.setDead r).2.str.state_ = STREAM_DEAD ∧
    (d.setDead r).2.recordedReason = some r ∧
    (d.setDead r).2.setDead r2 = (0, (d.setDead r).2) ∧
    (∀ d2 : StreamWithReason, d2.str.state_ = STREAM_DEAD →
        d2.setDead r2 = (0, d2)) := by
  refine ⟨?_, ?_, ?_, ?_, ?_⟩
  · simp [StreamWithReason.setDead, h]
  · simp [StreamWithReason.setDead, h]
  · simp [StreamWithReason.setDead, h]
  · simp [StreamWithReason.setDead, h]
  · intro d2 h2
    simp [StreamWithReason.setDead, h2]

/-- Witness for C4 at a concrete live stream holding three queued bytes. -/
theorem C4_setDead_idempotent_witness :
    ((StreamWithReason.mk sampleStream none).setDead END_STREAM_CLOSED).1 = 3 ∧
    ((StreamWithReason.mk sampleStream none).setDead
        END_STREAM_CLOSED).2.str.state_ = STREAM_DEAD ∧
    ((StreamWithReason.mk sampleStream none).setDead
        END_STREAM_CLOSED).2.recordedReason = some END_STREAM_CLOSED ∧
    (((StreamWithReason.mk sampleStream none).setDead
        END_STREAM_CLOSED).2.setDead END_STREAM_OK =
      (0, ((StreamWithReason.mk sampleStream none).setDead
            END_STREAM_CLOSED).2)) ∧
    (∀ d2 : StreamWithReason, d2.str.state_ = STREAM_DEAD →
        d2.setDead END_STREAM_OK = (0, d2)) :=
  C4_setDead_idempotent (StreamWithReason.mk sampleStream none)
    END_STREAM_CLOSED END_STREAM_OK (by decide)

/-- An inbound DCP message on the consumer side, as validated by
`PassiveStream::messageReceived`. -/
inductive DcpMessage
  | SnapshotMarker (snapStart snapEnd : Nat) (typ : snapshot_type_t)
  | Mutation (seqno : Nat)
  | Deletion (seqno : Nat)
deriving DecidableEq, Repr

/-- The consumer-side stream `PassiveStream` (stream.h, lines 332-397):
state, identity, the applied high-water mark `last_seqno`, the current
inbound snapshot envelope `cur_snapshot_*`, and the back-pressure
`buffer` of received-but-unprocessed messages. -/
structure PassiveStream where
  state_ : stream_state_t
  opaque_ : Nat
  start_seqno_ : Nat
  last_seqno : Nat
  cur_snapshot_start : Nat
  cur_snapshot_end : Nat
  cur_snapshot_type : snapshot_type_t
  buffer : List DcpMessage
deriving DecidableEq, Repr

/-- The outcome of `PassiveStream::messageReceived`: the message was
applied immediately, queued into the buffer, or rejected with an error
code. -/
inductive MsgResult
  | applied (st : PassiveStream)
  | buffered (st : PassiveStream)
  | rejected
deriving DecidableEq, Repr

/-- Modelled from the spec: `PassiveStream::messageReceived` (declared
stream.h line 353; body in the absent stream.cc).  Per §4.4 it validates
and either applies immediately or buffers: a SnapshotMarker is rejected
while the current snapshot is not fully consumed
(`last_seqno < cur_snapshot_end`); a Mutation or Deletion is rejected if
its seqno lies outside `[cur_snapshot_start, cur_snapshot_end]` or is at
most `last_seqno`.  An accepted marker installs the new snapshot window;
an accepted mutation or deletion is applied (advancing `last_seqno`)
unless older messages are still buffered, in which case it is queued
behind them. -/
def PassiveStream.messageReceived (st : PassiveStream)
    (msg : DcpMessage) : MsgResult :=
  match msg with
  | DcpMessage.SnapshotMarker ss se t =>
      if st.last_seqno < st.cur_snapshot_end then
        MsgResult.rejected
      else if st.buffer ≠ [] then
        MsgResult.buffered { st with buffer := st.buffer ++ [msg] }
      else
        MsgResult.applied { st with cur_snapshot_start := ss,
                                    cur_snapshot_end := se,
                                    cur_snapshot_type := t }
  | DcpMessage.Mutation s =>
      if s < st.cur_snapshot_start ∨ st.cur_snapshot_end < s ∨
          s ≤ st.last_seqno then
        MsgResult.rejected
      else if st.buffer ≠ [] then
        MsgResult.buffered { st with buffer := st.buffer ++ [msg] }
      else
        MsgResult.applied { st with last_seqno := s }
  | DcpMessage.Deletion s =>
      if s < st.cur_snapshot_start ∨ st.cur_snapshot_end < s ∨
          s ≤ st.last_seqno then
        MsgResult.rejected
      else if st.buffer ≠ [] then
        MsgResult.buffered { st with buffer := st.buffer ++ [msg] }
      else
        MsgResult.applied { st with last_seqno := s }

/-- Claim C3: `messageReceived` rejects a SnapshotMarker exactly when the
current snapshot is not fully consumed, rejects a Mutation or Deletion
exactly when its seqno falls outside the current snapshot window or does
not exceed `last_seqno`, and every accepted message is either applied
immediately or buffered. -/
theorem C3_messageReceived_validation (st : PassiveStream) :
    (∀ ss se t, st.messageReceived (DcpMessage.SnapshotMarker ss se t) =
        MsgResult.rejected ↔ st.last_seqno < st.cur_snapshot_end) ∧
    (∀ s, st.messageReceived (DcpMessage.Mutation s) = MsgResult.rejected ↔
        (s < st.cur_snapshot_start ∨ st.cur_snapshot_end < s ∨
          s ≤ st.last_seqno)) ∧
    (∀ s, st.messageReceived (DcpMessage.Deletion s) = MsgResult.rejected ↔
        (s < st.cur_snapshot_start ∨ st.cur_snapshot_end < s ∨
          s ≤ st.last_seqno)) ∧
    (∀ msg, st.messageReceived msg = MsgResult.rejected ∨
        (∃ st2, st.messageReceived msg = MsgResult.applied st2) ∨
        (∃ st2, st.messageReceived msg = MsgResult.buffered st2)) := by
  refine ⟨?_, ?_, ?_, ?_⟩
  · intro ss se t
    by_cases h1 : st.last_seqno < st.cur_snapshot_end
    · simp [PassiveStream.messageReceived, h1]
    · by_cases h2 : st.buffer = [] <;>
        simp [PassiveStream.messageReceived, h1, h2]
  · intro s
    by_cases h1 : s < st.cur_snapshot_start ∨ st.cur_snapshot_end < s ∨
        s ≤ st.last_seqno
    · simp [PassiveStream.messageReceived, h1]
    · by_cases h2 : st.buffer = [] <;>
        simp [PassiveStream.messageReceived, h1, h2]
  · intro s
    by_cases h1 : s < st.cur_snapshot_start ∨ st.cur_snapshot_end < s ∨
        s ≤ st.last_seqno
    · simp [PassiveStream.messageReceived, h1]
    · by_cases h2 : st.buffer = [] <;>
        simp [PassiveStream.messageReceived, h1, h2]
  · intro msg
    cases msg with
    | SnapshotMarker ss se t =>
        by_cases h1 : st.last_seqno < st.cur_snapshot_end
        · simp [PassiveStream.messageReceived, h1]
        · by_cases h2 : st.buffer = [] <;>
            simp [PassiveStream.messageReceived, h1, h2]
    | Mutation s =>
        by_cases h1 : s < st.cur_snapshot_start ∨ st.cur_snapshot_end < s ∨
            s ≤ st.last_seqno
        · simp [PassiveStream.messageReceived, h1]
        · by_cases h2 : st.buffer = [] <;>
            simp [PassiveStream.messageReceived, h1, h2]
    | Deletion s =>
        by_cases h1 : s < st.cur_snapshot_start ∨ st.cur_snapshot_end < s ∨
            s ≤ st.last_seqno
        · simp [PassiveStream.messageReceived, h1]
        · by_cases h2 : st.buffer = [] <;>
            simp [PassiveStream.messageReceived, h1, h2]

/-- Modelled from the spec: the consumer transition graph of §4.4,
`Pending → Reading → Dead`, plus the universal edge into Dead. -/
def passiveValidTransition : stream_state_t → stream_state_t → Bool
  | STREAM_PENDING, STREAM_READING => true
  | _, STREAM_DEAD => true
  | _, _ => false

/-- Modelled from the spec: `PassiveStream::transitionState` (declared
stream.h line 371; body in the absent stream.cc) performs a permitted
consumer transition by storing the new state. -/
def PassiveStream.transitionState (st : PassiveStream)
    (newState : stream_state_t) : PassiveStream :=
  if passiveValidTransition st.state_ newState then
    { st with state_ := newState }
  else
    st

/-- Modelled from the spec: `PassiveStream::reconnectStream` (declared
stream.h lines 350-351; body in the absent stream.cc).  Per §4.4 it
resets `opaque` and `start_seqno`, clears the buffer, and returns the
stream to Pending. -/
def PassiveStream.reconnectStream (st : PassiveStream)
    ( new_opaque start_seqno : Nat) : PassiveStream :=
  { st with opaque_ := new_opaque,
            start_seqno_ := start_seqno,
            buffer := [],
            state_ := STREAM_PENDING }

/-- Modelled from the spec: `PassiveStream::acceptStream` (declared
stream.h line 348; body in the absent stream.cc).  Per §4.4 it
transitions Pending → Reading when the transport status is OK (success
code 0) and to Dead on a failure status. -/
def PassiveStream.acceptStream (st : PassiveStream)
    (status add_opaque : Nat) : PassiveStream :=
  if status = 0 then
    st.transitionState STREAM_READING
  else
    st.transitionState STREAM_DEAD

/-- Claim C7: `reconnectStream(vb, new_opaque, start_seqno)` installs the
new opaque and start seqno, empties the buffer and returns to Pending;
then `acceptStream` with status OK moves Pending to Reading, and with any
failure status moves to Dead. -/
theorem C7_reconnect_then_accept (st : PassiveStream)
    (o s ao : Nat) (c : Nat) (hc : c ≠ 0) :
    (st.reconnectStream o s).opaque_ = o ∧
    (st.reconnectStream o s).start_seqno_ = s ∧
    (st.reconnectStream o s).buffer = [] ∧
    (st.reconnectStream o s).state_ = STREAM_PENDING ∧
    ((st.reconnectStream o s).acceptStream 0 ao).state_ = STREAM_READING ∧
    ((st.reconnectStream o s).acceptStream c ao).state_ = STREAM_DEAD := by
  refine ⟨rfl, rfl, rfl, rfl, ?_, ?_⟩
  · simp [PassiveStream.reconnectStream, PassiveStream.acceptStream,
          PassiveStream.transitionState, passiveValidTransition]
  · simp [PassiveStream.reconnectStream, PassiveStream.acceptStream,
          PassiveStream.transitionState, passiveValidTransition, hc]

/-- The reconnect scenario of §8: a Reading consumer stream at
`last_seqno = 73` before the connection drops. -/
def samplePassive : PassiveStream :=
  { state_ := STREAM_READING, opaque_ := 2, start_seqno_ := 0,
    last_seqno := 73, cur_snapshot_start := 0, cur_snapshot_end := 73,
    cur_snapshot_type := snapshot_type_t.memory,
    buffer := [DcpMessage.Mutation 74] }

/-- Witness for C7: `reconnectStream(new_opaque=9, start=74)` on the §8
scenario stream, followed by `acceptStream(OK)` and by a failed accept
with transport code 1. -/
theorem C7_reconnect_then_accept_witness :
    (samplePassive.reconnectStream 9 74).opaque_ = 9 ∧
    (samplePassive.reconnectStream 9 74).start_seqno_ = 74 ∧
    (samplePassive.reconnectStream 9 74).buffer = [] ∧
    (samplePassive.reconnectStream 9 74).state_ = STREAM_PENDING ∧
    ((samplePassive.reconnectStream 9 74).acceptStream 0 9).state_ =
      STREAM_READING ∧
    ((samplePassive.reconnectStream 9 74).acceptStream 1 9).state_ =
      STREAM_DEAD :=
  C7_reconnect_then_accept samplePassive 9 74 9 1 (by decide)

/-- The notifier's only outbound message: a StreamEnd carrying an
end-of-stream reason. -/
inductive NotifierMsg
  | StreamEnd (r : end_stream_status_t)
deriving DecidableEq, Repr

/-- The producer-side `NotifierStream` (stream.h, lines 305-330): carries
no data, only the threshold `end_seqno_`, the state, and a ready queue
for the single StreamEnd it may emit. -/
structure NotifierStream where
  state_ : stream_state_t
  end_seqno_ : Nat
  readyQ : List NotifierMsg
deriving DecidableEq, Repr

/-- Modelled from the spec: `NotifierStream::notifySeqnoAvailable`
(declared stream.h line 323; body in the absent stream.cc).  Per §4.3, if
the notified seqno reaches the threshold `end_seqno`, enqueue a single
StreamEnd(OK) and transition to Dead; a Dead stream never enqueues
additional messages (§3 invariant 5). -/
def NotifierStream.notifySeqnoAvailable (n : NotifierStream)
    (seqno : Nat) : NotifierStream :=
  if n.state_ ≠ STREAM_DEAD ∧ n.end_seqno_ ≤ seqno then
    { n with readyQ := n.readyQ ++ [NotifierMsg.StreamEnd END_STREAM_OK],
             state_ := STREAM_DEAD }
  else
    n

/-- Modelled from the spec: `NotifierStream::next` (declared stream.h
line 319; body in the absent stream.cc).  It returns the next outbound
message, or null if none is ready (§4.1). -/
def NotifierStream.next (n : NotifierStream) :
    Option NotifierMsg × NotifierStream :=
  match n.readyQ with
  | [] => (none, n)
  | m :: rest => (some m, { n with readyQ := rest })

/-- Claim C8: on a live notifier with an empty ready queue,
`notifySeqnoAvailable(s)` with `s ≥ end_seqno` enqueues exactly one
StreamEnd(OK) and moves the stream to Dead; `next()` then yields that
message exactly once and null afterwards; with `s < end_seqno` nothing
changes. -/
theorem C8_notifier_stream_end (n : NotifierStream) (s : Nat)
    (hq : n.readyQ = []) (hs : n.state_ ≠ STREAM_DEAD) :
    (n.end_seqno_ ≤ s →
      (n.notifySeqnoAvailable s).readyQ =
          [NotifierMsg.StreamEnd END_STREAM_OK] ∧
      (n.notifySeqnoAvailable s).state_ = STREAM_DEAD ∧
      ((n.notifySeqnoAvailable s).next).1 =
          some (NotifierMsg.StreamEnd END_STREAM_OK) ∧
      (((n.notifySeqnoAvailable s).next).2.next).1 = none) ∧
    (s < n.end_seqno_ → n.notifySeqnoAvailable s = n) := by
  constructor
  · intro hle
    have hcond : n.state_ ≠ STREAM_DEAD ∧ n.end_seqno_ ≤ s := ⟨hs, hle⟩
    simp [NotifierStream.notifySeqnoAvailable, hcond, hq, NotifierStream.next]
  · intro hlt
    have hcond : ¬(n.state_ ≠ STREAM_DEAD ∧ n.end_seqno_ ≤ s) := by
      intro hc
      omega
    simp [NotifierStream.notifySeqnoAvailable, hcond]

/-- Witness for C8: a pending notifier with threshold 10, notified at
seqno 10 and, in the low branch, at seqno 9. -/
theorem C8_notifier_stream_end_witness :
    ((NotifierStream.mk STREAM_PENDING 10 []).end_seqno_ ≤ 10 →
      ((NotifierStream.mk STREAM_PENDING 10 []).notifySeqnoAvailable
          10).readyQ = [NotifierMsg.StreamEnd END_STREAM_OK] ∧
      ((NotifierStream.mk STREAM_PENDING 10 []).notifySeqnoAvailable
          10).state_ = STREAM_DEAD ∧
      (((NotifierStream.mk STREAM_PENDING 10 []).notifySeqnoAvailable
          10).next).1 = some (NotifierMsg.StreamEnd END_STREAM_OK) ∧
      ((((NotifierStream.mk STREAM_PENDING 10 []).notifySeqnoAvailable
          10).next).2.next).1 = none) ∧
    (10 < (NotifierStream.mk STREAM_PENDING 10 []).end_seqno_ →
      (NotifierStream.mk STREAM_PENDING 10 []).notifySeqnoAvailable 10 =
        NotifierStream.mk STREAM_PENDING 10 []) :=
  C8_notifier_stream_end (NotifierStream.mk STREAM_PENDING 10 []) 10
    (by decide) (by decide)

/-- An event of the executor thread's `resetCurrentTask`
(executorthread.cc, lines 203-212), including the lock operations that
could in principle occur there. -/
inductive ExecEvent
  | acquireCurrentTaskMutex
  | moveOutCurrentTask
  | releaseCurrentTaskMutex
  | resetMovedOutTask
  | acquireStreamLock
  | releaseStreamLock
deriving DecidableEq, Repr

open ExecEvent

/-- The straight-line body of `ExecutorThread::resetCurrentTask`
(executorthread.cc, lines 203-212) as an event trace: `LockHolder
lh(currentTaskMutex)` opens the scope, `std::move(currentTask)` steals
the pointer inside it, the scope end releases the mutex, and only then
does `resetThisObject.reset()` release the task. -/
def resetCurrentTaskTrace : List ExecEvent :=
  [acquireCurrentTaskMutex, moveOutCurrentTask,
   releaseCurrentTaskMutex, resetMovedOutTask]

/-- Number of holds of the current-task mutex after a prefix of events. -/
def ctmDepth (es : List ExecEvent) : Nat :=
  es.foldl
    (fun d e =>
      match e with
      | acquireCurrentTaskMutex => d + 1
      | releaseCurrentTaskMutex => d - 1
      | _ => d)
    0

/-- Number of holds of a stream lock after a prefix of events. -/
def streamLockDepth (es : List ExecEvent) : Nat :=
  es.foldl
    (fun d e =>
      match e with
      | acquireStreamLock => d + 1
      | releaseStreamLock => d - 1
      | _ => d)
    0

/-- Claim C9: in `resetCurrentTask` the current-task pointer is moved out
of the holder while the current-task mutex is held, and the final release
of the moved-out pointer happens only after that mutex is dropped, with
no stream lock held anywhere in the function; so the task destructor
never runs under the current-task mutex or a stream lock. -/
theorem C9_resetCurrentTask_lock_order :
    resetCurrentTaskTrace.indexOf moveOutCurrentTask <
      resetCurrentTaskTrace.indexOf resetMovedOutTask ∧
    ctmDepth (resetCurrentTaskTrace.take
      (resetCurrentTaskTrace.indexOf moveOutCurrentTask)) = 1 ∧
    ctmDepth (resetCurrentTaskTrace.take
      (resetCurrentTaskTrace.indexOf resetMovedOutTask)) = 0 ∧
    streamLockDepth (resetCurrentTaskTrace.take
      (resetCurrentTaskTrace.indexOf resetMovedOutTask)) = 0 ∧
    resetCurrentTaskTrace.count moveOutCurrentTask = 1 ∧
    resetCurrentTaskTrace.count resetMovedOutTask = 1 ∧
    acquireStreamLock ∉ resetCurrentTaskTrace := by
  decide

/-- Modelled from the spec: the seqno bookkeeping of `ActiveStream`
(fields declared stream.h lines 254-258; the method bodies live in the
absent stream.cc).  Per §3, `last_read_seqno` is the highest seqno placed
on the ready queue from any source and `last_sent_seqno` the highest
seqno the transport has dequeued; `readyMutations` models the seqnos of
queued-but-unsent mutations in order and `sentTrace` the seqnos emitted
to the network, in emission order. -/
structure ProducerState where
  lastReadSeqno : Nat
  lastSentSeqno : Nat
  readyMutations : List Nat
  sentTrace : List Nat
deriving DecidableEq, Repr

/-- Modelled from the spec: accepting a mutation at `seqno` from disk or
memory.  §2 requires the two sources to be reconciled into a single
monotonic sequence, so only a seqno above `last_read_seqno` is queued,
and queuing it raises `last_read_seqno` to it. -/
def ProducerState.readMutation (q : ProducerState) (seqno : Nat) :
    ProducerState :=
  if q.lastReadSeqno < seqno then
    { q with lastReadSeqno := seqno,
             readyMutations := q.readyMutations ++ [seqno] }
  else
    q

/-- Modelled from the spec: the transport dequeuing the head of the ready
queue via `next()` (§4.2); the dequeued seqno becomes `last_sent_seqno`
and is appended to the emission trace. -/
def ProducerState.sendNext (q : ProducerState) : ProducerState :=
  match q.readyMutations with
  | [] => q
  | s :: rest =>
      { q with lastSentSeqno := s,
               readyMutations := rest,
               sentTrace := q.sentTrace ++ [s] }

/-- An operation on the producer-side seqno bookkeeping. -/
inductive ProducerOp
  | read (seqno : Nat)
  | send
deriving DecidableEq, Repr

/-- Apply one producer operation. -/
def ProducerState.applyOp (q : ProducerState) : ProducerOp → ProducerState
  | ProducerOp.read s => q.readMutation s
  | ProducerOp.send => q.sendNext

/-- Run a sequence of producer operations from the left. -/
def ProducerState.runOps (q : ProducerState) (ops : List ProducerOp) :
    ProducerState :=
  ops.foldl ProducerState.applyOp q

/-- The seqno invariant of the producer: the sent mark never exceeds the
read mark, the unsent queue is strictly increasing and strictly above the
sent mark, every queued seqno has been read, and the emission trace is
strictly increasing and bounded by the sent mark. -/
def producerInv (q : ProducerState) : Prop :=
  q.lastSentSeqno ≤ q.lastReadSeqno ∧
  List.Pairwise (· < ·) (q.lastSentSeqno :: q.readyMutations) ∧
  (∀ x ∈ q.readyMutations, x ≤ q.lastReadSeqno) ∧
  List.Pairwise (· < ·) q.sentTrace ∧
  (∀ x ∈ q.sentTrace, x ≤ q.lastSentSeqno)

theorem readMutation_preserves (q : ProducerState) (s : Nat)
    (h : producerInv q) :
    producerInv (q.readMutation s) ∧
      q.lastReadSeqno ≤ (q.readMutation s).lastReadSeqno := by
  obtain ⟨h1, h2, h3, h4, h5⟩ := h
  by_cases hr : q.lastReadSeqno < s
  · have hsent : ∀ y ∈ q.readyMutations, q.lastSentSeqno < y :=
      (List.pairwise_cons.mp h2).1
    have hready : List.Pairwise (· < ·) q.readyMutations :=
      (List.pairwise_cons.mp h2).2
    refine ⟨⟨?_, ?_, ?_, ?_, ?_⟩, ?_⟩ <;>
      simp only [ProducerState.readMutation, if_pos hr]
    · omega
    · refine List.pairwise_cons.mpr ⟨?_, ?_⟩
      · intro y hy
        rcases List.mem_append.mp hy with hy | hy
        · exact hsent y hy
        · have : y = s := by simpa using hy
          omega
      · refine List.pairwise_append.mpr ⟨hready, List.pairwise_singleton _ _, ?_⟩
        intro a ha b hb
        have hb2 : b = s := by simpa using hb
        have := h3 a ha
        omega
    · intro x hx
      rcases List.mem_append.mp hx with hx | hx
      · have := h3 x hx
        omega
      · have : x = s := by simpa using hx
        omega
    · exact h4
    · exact h5
    · omega
  · simp only [ProducerState.readMutation, if_neg hr]
    exact ⟨⟨h1, h2, h3, h4, h5⟩, le_refl _⟩

theorem sendNext_preserves (q : ProducerState) (h : producerInv q) :
    producerInv q.sendNext ∧ q.lastReadSeqno ≤ q.sendNext.lastReadSeqno := by
  obtain ⟨h1, h2, h3, h4, h5⟩ := h
  cases hq : q.readyMutations with
  | nil =>
      have hstep : q.sendNext = q := by
        unfold ProducerState.sendNext
        rw [hq]
      rw [hstep]
      exact ⟨⟨h1, h2, h3, h4, h5⟩, le_refl _⟩
  | cons m rest =>
      rw [hq] at h2 h3
      have hm : q.lastSentSeqno < m := (List.pairwise_cons.mp h2).1 m (by simp)
      have htail : List.Pairwise (· < ·) (m :: rest) :=
        (List.pairwise_cons.mp h2).2
      have hstep : q.sendNext =
          { q with lastSentSeqno := m, readyMutations := rest,
                   sentTrace := q.sentTrace ++ [m] } := by
        unfold ProducerState.sendNext
        rw [hq]
      rw [hstep]
      refine ⟨⟨?_, ?_, ?_, ?_, ?_⟩, le_refl _⟩
      · simpa using h3 m (by simp)
      · simpa using htail
      · intro x hx
        exact h3 x (by simp [hx])
      · refine List.pairwise_append.mpr ⟨h4, List.pairwise_singleton _ _, ?_⟩
        intro a ha b hb
        have hb2 : b = m := by simpa using hb
        have := h5 a ha
        omega
      · intro x hx
        rcases List.mem_append.mp hx with hx | hx
        · have := h5 x hx
          simp only
          omega
        · have hxm : x = m := by simpa using hx
          simp [hxm]

theorem applyOp_preserves (q : ProducerState) (op : ProducerOp)
    (h : producerInv q) :
    producerInv (q.applyOp op) ∧
      q.lastReadSeqno ≤ (q.applyOp op).lastReadSeqno := by
  cases op with
  | read s => exact readMutation_preserves q s h
  | send => exact sendNext_preserves q h

theorem runOps_preserves (ops : List ProducerOp) :
    ∀ q : ProducerState, producerInv q →
      producerInv (q.runOps ops) ∧
        q.lastReadSeqno ≤ (q.runOps ops).lastReadSeqno := by
  induction ops with
  | nil =>
      intro q h
      exact ⟨h, le_refl _⟩
  | cons op rest ih =>
      intro q h
      have hstep := applyOp_preserves q op h
      have hrest := ih (q.applyOp op) hstep.1
      refine ⟨?_, ?_⟩
      · simpa [ProducerState.runOps, List.foldl_cons] using hrest.1
      · have : q.runOps (op :: rest) = (q.applyOp op).runOps rest := by
          simp [ProducerState.runOps, List.foldl_cons]
        rw [this]
        exact le_trans hstep.2 hrest.2

/-- Claim C2: over any sequence of producer operations, `last_read_seqno`
is monotonically non-decreasing, `last_sent_seqno ≤ last_read_seqno`
throughout, and the emitted mutation trace is strictly increasing, so
every pair of consecutively emitted mutations has `m1.seqno < m2.seqno`. -/
theorem C2_active_stream_seqno_monotone (q : ProducerState)
    (ops : List ProducerOp) (h : producerInv q) :
    q.lastReadSeqno ≤ (q.runOps ops).lastReadSeqno ∧
    (q.runOps ops).lastSentSeqno ≤ (q.runOps ops).lastReadSeqno ∧
    producerInv (q.runOps ops) ∧
    List.Chain' (· < ·) (q.runOps ops).sentTrace := by
  have hrun := runOps_preserves ops q h
  exact ⟨hrun.2, hrun.1.1, hrun.1,
         List.Pairwise.chain' hrun.1.2.2.2.1⟩

/-- A fresh producer at start seqno 0, as constructed at stream open. -/
def initialProducer : ProducerState :=
  { lastReadSeqno := 0, lastSentSeqno := 0,
    readyMutations := [], sentTrace := [] }

/-- Witness for C2: reading seqnos 1 and 2 and then sending both from the
fresh producer. -/
theorem C2_active_stream_seqno_monotone_witness :
    initialProducer.lastReadSeqno ≤
      (initialProducer.runOps
        [ProducerOp.read 1, ProducerOp.read 2,
         ProducerOp.send, ProducerOp.send]).lastReadSeqno ∧
    (initialProducer.runOps
        [ProducerOp.read 1, ProducerOp.read 2,
         ProducerOp.send, ProducerOp.send]).lastSentSeqno ≤
      (initialProducer.runOps
        [ProducerOp.read 1, ProducerOp.read 2,
         ProducerOp.send, ProducerOp.send]).lastReadSeqno ∧
    producerInv (initialProducer.runOps
        [ProducerOp.read 1, ProducerOp.read 2,
         ProducerOp.send, ProducerOp.send]) ∧
    List.Chain' (· < ·) (initialProducer.runOps
        [ProducerOp.read 1, ProducerOp.read 2,
         ProducerOp.send, ProducerOp.send]).sentTrace :=
  C2_active_stream_seqno_monotone initialProducer
    [ProducerOp.read 1, ProducerOp.read 2, ProducerOp.send, ProducerOp.send]
    ⟨le_refl 0, List.pairwise_singleton _ _, by simp [initialProducer],
     List.Pairwise.nil, by simp [initialProducer]⟩

end Dcp
